import Mathlib

/-!
Shallow embedding of the authentication / rate-limiting pipeline and the
recommendation scorer of the movie-recommendation backend
(`app/core/security.py`, `app/core/cache.py`, `app/api/deps.py`,
`app/models/user.py`, `app/models/movie.py`, `app/services/user_service.py`),
together with theorems settling the specification claims about them.

Conventions of the embedding:
* instants of time are unix timestamps modelled as `Nat`
  (`datetime.utcnow()` becomes an explicit `now : Nat` parameter);
* Python `None` becomes `Option.none`; SQL nullable columns become `Option`;
* Python exceptions become `Except` results; FastAPI `HTTPException` becomes
  an explicit `HTTPError` value;
* float arithmetic of the scorer is modelled over `ℚ`;
* the JWT library (python-jose) is modelled symbolically: a token is either
  structurally malformed or a signed payload; `jwt.decode` fails exactly on
  malformed input, wrong key, or `exp` strictly in the past (jose checks
  `exp < now` with zero leeway).
-/

namespace MovieRec

/-- `app/models/user.py`: the `users` row, restricted to the columns the
authentication pipeline reads.  `api_key` and `api_key_expires_at` are
nullable columns. -/
structure User where
  id : Nat
  username : String
  is_active : Bool
  api_key : Option String
  api_key_expires_at : Option Nat
  deriving Repr, DecidableEq

/-- Python truthiness of an optional string: `None` and `""` are falsy. -/
def strTruthy : Option String → Bool
  | none => false
  | some s => !(s = "")

/-- `User.is_api_key_valid` (`app/models/user.py`): false if `api_key` is
falsy; false if `api_key_expires_at` is set and `utcnow()` is strictly past
it (a `datetime` object is always truthy, so the Python `and` test is just
a `None` check); true otherwise. -/
def User.is_api_key_valid (now : Nat) (u : User) : Bool :=
  if !(strTruthy u.api_key) then false
  else
    match u.api_key_expires_at with
    | some e => if now > e then false else true
    | none => true

/-! ## Tokens (`app/core/security.py`, python-jose model) -/

/-- The decoded JWT claims produced by this service: `sub` and `user_id`
(either may be absent from the dict, hence `Option`), `iat` and `exp`. -/
structure TokenPayload where
  sub : Option String
  user_id : Option Nat
  iat : Nat
  exp : Nat
  deriving Repr, DecidableEq

/-- A wire token: either structurally malformed bytes, or a payload signed
with some key. -/
inductive JoseToken where
  | malformed : JoseToken
  | signed (payload : TokenPayload) (key : String) : JoseToken
  deriving Repr, DecidableEq

/-- python-jose `jwt.decode(token, secret, ...)` at instant `now`: raises
`JWTError` (modelled as `Except.error`) on malformed input, on a signature
made with a different key, and on expiry (`ExpiredSignatureError` when
`exp < now`, zero leeway); otherwise yields the payload. -/
def jwtDecode (secret : String) (now : Nat) : JoseToken → Except Unit TokenPayload
  | .malformed => .error ()
  | .signed p k =>
    if k ≠ secret then .error ()
    else if p.exp < now then .error ()
    else .ok p

/-- The `data` dict passed to `create_access_token` by this service:
`{"sub": username, "user_id": id}`. -/
structure TokenData where
  sub : Option String
  user_id : Option Nat
  deriving Repr, DecidableEq

/-- `create_access_token` (`app/core/security.py`): copies `data`, sets
`exp` to `utcnow() + expires_delta` (or `utcnow() + access_token_expire_minutes`
minutes when no delta is given) and `iat` to `utcnow()`, and signs with the
configured secret. -/
def create_access_token (data : TokenData) (now : Nat) (expires_delta : Option Nat)
    (default_expire_minutes : Nat) (secret : String) : JoseToken :=
  let expire :=
    match expires_delta with
    | some d => now + d
    | none => now + default_expire_minutes * 60
  .signed ⟨data.sub, data.user_id, now, expire⟩ secret

/-- `verify_token` (`app/core/security.py`): `jwt.decode` with every
`JWTError` (and any other exception) caught and converted to `None`. -/
def verify_token (secret : String) (now : Nat) (t : JoseToken) : Option TokenPayload :=
  match jwtDecode secret now t with
  | .ok p => some p
  | .error _ => none

/-- `generate_api_key` (`app/core/security.py`):
`f"sk_{settings.secret_key[:16]}_{utcnow().strftime('%Y%m%d')}"`.
`today` is the `%Y%m%d`-formatted current UTC date. -/
def generate_api_key (secret_key : String) (today : String) : String :=
  "sk_" ++ (secret_key.take 16) ++ "_" ++ today

/-- `UserService.generate_api_key_for_user` (`app/services/user_service.py`):
stores a freshly generated key on the user with a 365-day expiry and
returns the key. -/
def generate_api_key_for_user (u : User) (secret_key : String) (today : String)
    (now : Nat) : User × String :=
  let key := generate_api_key secret_key today
  ({ u with api_key := some key, api_key_expires_at := some (now + 365 * 86400) }, key)

/-! ## HTTP-level outcomes -/

/-- A FastAPI `HTTPException`: status code, detail message, extra headers. -/
structure HTTPError where
  status : Nat
  detail : String
  headers : List (String × String)
  deriving Repr, DecidableEq

/-- The 401 raised by `get_current_active_user` / `require_auth`. -/
def unauthenticatedError (detail : String) : HTTPError :=
  ⟨401, detail, [("WWW-Authenticate", "Bearer")]⟩

/-- The 400 raised by `get_current_active_user` for an inactive user. -/
def inactiveError : HTTPError := ⟨400, "Inactive user", []⟩

/-- The 429 raised by `rate_limit_middleware`. -/
def rateLimitError (limit : Nat) : HTTPError :=
  ⟨429, "Rate limit exceeded. Maximum " ++ toString limit ++ " requests per minute.",
    [("Retry-After", "60")]⟩

/-! ## Identity resolution (`app/api/deps.py`) -/

/-- `get_current_user` (`app/api/deps.py`).  `credentials` is what
`HTTPBearer(auto_error=False)` yields: `none` when no bearer header is
present.  `db` is the user table keyed by id (`UserService.get_user_by_id`).
Any step failing yields `none`; the surrounding `try/except` also maps
storage errors to `none`. -/
def get_current_user (db : Nat → Option User) (secret : String) (now : Nat)
    (credentials : Option JoseToken) : Option User :=
  match credentials with
  | none => none
  | some tok =>
    match verify_token secret now tok with
    | none => none
    | some payload =>
      match payload.sub, payload.user_id with
      | some _, some uid =>
        match db uid with
        | none => none
        | some user => if !user.is_active then none else some user
      | _, _ => none

/-- `get_current_active_user` (`app/api/deps.py`): 401 with
`WWW-Authenticate: Bearer` when no user resolved, 400 when the resolved
user is inactive, the user otherwise. -/
def get_current_active_user (current_user : Option User) : Except HTTPError User :=
  match current_user with
  | none => .error (unauthenticatedError "Not authenticated")
  | some u =>
    if !u.is_active then .error inactiveError
    else .ok u

/-- `verify_api_key` (`app/api/deps.py`).  `header` is
`request.headers.get("X-API-Key")` (`none` when absent; an empty value is
falsy and also rejected).  `dbByKey` is `UserService.get_user_by_api_key`:
exact-match lookup on the `api_key` column. -/
def verify_api_key (dbByKey : String → Option User) (now : Nat)
    (header : Option String) : Option User :=
  if !(strTruthy header) then none
  else
    match header with
    | none => none
    | some k =>
      match dbByKey k with
      | none => none
      | some u =>
        if u.is_api_key_valid now && u.is_active then some u else none

/-- `require_auth` (`app/api/deps.py`): token-resolved user first, then
API-key-resolved user, else 401. -/
def require_auth (current_user api_user : Option User) : Except HTTPError User :=
  match current_user with
  | some u => .ok u
  | none =>
    match api_user with
    | some u => .ok u
    | none => .error (unauthenticatedError "Authentication required")

/-- `optional_auth` (`app/api/deps.py`): token-resolved user first, then
API-key-resolved user, else `none`; never raises. -/
def optional_auth (current_user api_user : Option User) : Option User :=
  match current_user with
  | some u => some u
  | none =>
    match api_user with
    | some u => some u
    | none => none

/-! ## Rate limiter (`app/core/cache.py`, `app/api/deps.py`) -/

/-- The Redis counter store: reachable with per-key counts, or unreachable
(any exception while talking to it). -/
inductive StoreState where
  | up (counts : String → Nat)
  | down
  deriving Nonempty

/-- Observed count of a key (0 on a missing key; unused on a down store). -/
def StoreState.count : StoreState → String → Nat
  | .up s, k => s k
  | .down, _ => 0

/-- `increment_rate_limit` (`app/core/cache.py`): `INCR key` then
`EXPIRE key window` in a pipeline, returning the incremented value
(Redis `INCR` on a missing key yields 1); on any exception it logs a
warning and returns 0.  The TTL set by `EXPIRE` does not affect the count
within a window, so it is not part of the state. -/
def increment_rate_limit (st : StoreState) (key : String) : Nat × StoreState :=
  match st with
  | .down => (0, .down)
  | .up s => (s key + 1, .up (fun k => if k = key then s key + 1 else s k))

/-- `Settings.validate_rate_limit` (`app/core/config.py`): rejects any
configured value below 1. -/
def validate_rate_limit (v : Int) : Except String Int :=
  if v < 1 then .error "Rate limit must be at least 1 request per minute"
  else .ok v

/-- The rate-limit key derivation inside `rate_limit_middleware`
(`app/api/deps.py`): `user:<id>` if the token path resolved, else
`api:<id>` if the API-key path resolved, else `ip:<client host>`. -/
def rateLimitKey (current_user api_user : Option User) (host : String) : String :=
  match current_user with
  | some u => "user:" ++ toString u.id
  | none =>
    match api_user with
    | some u => "api:" ++ toString u.id
    | none => "ip:" ++ host

/-- `rate_limit_middleware` (`app/api/deps.py`): derive the key, increment
its counter (window 60 s), and raise 429 with `Retry-After: 60` when the
returned count strictly exceeds `settings.rate_limit_per_minute`.  The
increment happens before the check, so the store advances even on a
rejected request. -/
def rate_limit_middleware (limit : Nat) (current_user api_user : Option User)
    (host : String) (st : StoreState) : Option HTTPError × StoreState :=
  let key := rateLimitKey current_user api_user host
  let r := increment_rate_limit st key
  if r.1 > limit then (some (rateLimitError limit), r.2) else (none, r.2)

/-- State of the store after `n` sequential calls of the middleware for a
fixed caller (fixed identity / address, hence fixed key). -/
def callSeq (limit : Nat) (current_user api_user : Option User) (host : String) :
    Nat → StoreState → StoreState
  | 0, st => st
  | n + 1, st =>
      (rate_limit_middleware limit current_user api_user host
        (callSeq limit current_user api_user host n st)).2

/-! ## Recommendation scorer (`app/models/movie.py`) -/

/-- The `movies` columns read by `popularity_score`.  `release_days` is the
integer `(datetime.now() - release_date).days` for a known release date
(`none` when the nullable column is null); the float columns are modelled
over `ℚ`. -/
structure Movie where
  popularity : Option ℚ
  vote_average : Option ℚ
  vote_count : Option Int
  release_days : Option Int
  budget : Option Int
  revenue : Option Int
  deriving Repr, DecidableEq

/-- Python `x or 0.0` on a nullable float: `None` and `0.0` are falsy. -/
def pyOrQ : Option ℚ → ℚ
  | none => 0
  | some x => if x = 0 then 0 else x

/-- Python `x or 0` on a nullable int, as a rational. -/
def pyOrZ : Option Int → ℚ
  | none => 0
  | some x => if x = 0 then 0 else (x : ℚ)

/-- Python truthiness of a nullable int: `None` and `0` are falsy. -/
def intTruthy : Option Int → Bool
  | none => false
  | some x => !(x = 0)

/-- `Movie.popularity_score` (`app/models/movie.py`), line by line:
base popularity, vote component, recency bonus (0.5 when the release date
is null, decay over ten years otherwise), financial bonus (only when
`budget` and `revenue` are truthy and `budget > 0`), combined with weights
0.5 and 0.3. -/
def Movie.popularity_score (m : Movie) : ℚ :=
  let base_score := pyOrQ m.popularity
  let vote_score := pyOrQ m.vote_average * min (pyOrZ m.vote_count / 1000) 1
  let recency_bonus :=
    match m.release_days with
    | some d =>
      let years_old : ℚ := (d : ℚ) / 365
      max 0 (1 - years_old / 10)
    | none => (1 : ℚ) / 2
  let financial_bonus : ℚ :=
    match m.budget, m.revenue with
    | some b, some r =>
      if b ≠ 0 ∧ r ≠ 0 ∧ b > 0 then min (((r : ℚ) - (b : ℚ)) / (b : ℚ) / 10) 1
      else 0
    | _, _ => 0
  base_score + vote_score + recency_bonus * (1 / 2) + financial_bonus * (3 / 10)

/-- The scorer formula as the spec states it (claim C9), with an "unset"
numeric input read as the column's null or its 0 default (the neutral
values the spec names): `score = base + vote_component + 0.5*recency_bonus
+ 0.3*financial_bonus`. -/
def specScore (m : Movie) : ℚ :=
  let base := pyOrQ m.popularity
  let vote_component := pyOrQ m.vote_average * min (pyOrZ m.vote_count / 1000) 1
  let recency_bonus :=
    match m.release_days with
    | none => (1 : ℚ) / 2
    | some d => max 0 (1 - ((d : ℚ) / 365) / 10)
  let financial_bonus :=
    if intTruthy m.budget && intTruthy m.revenue &&
        decide ((m.budget.getD 0) > 0) then
      min ((((m.revenue.getD 0) : ℚ) - ((m.budget.getD 0) : ℚ))
          / ((m.budget.getD 0) : ℚ) / 10) 1
    else 0
  base + vote_component + (1 / 2) * recency_bonus + (3 / 10) * financial_bonus

/-! ## Claim theorems -/

/-- C2: the rate-limit key is "user:〈id〉" when the token path resolved,
else "api:〈id〉" when the API-key path resolved, else "ip:〈caller address〉";
in particular user id 7 gives "user:7", API identity 7 gives "api:7", and
an anonymous caller at 10.0.0.5 gives "ip:10.0.0.5". -/
theorem rate_limit_key_priority (cu au : Option User) (host : String) :
    (∀ u, cu = some u → rateLimitKey cu au host = "user:" ++ toString u.id) ∧
    (cu = none → ∀ u, au = some u → rateLimitKey cu au host = "api:" ++ toString u.id) ∧
    (cu = none → au = none → rateLimitKey cu au host = "ip:" ++ host) ∧
    (∀ u, u.id = 7 → cu = some u → rateLimitKey cu au host = "user:7") ∧
    (∀ u, u.id = 7 → cu = none → au = some u → rateLimitKey cu au host = "api:7") ∧
    (cu = none → au = none → host = "10.0.0.5" → rateLimitKey cu au host = "ip:10.0.0.5") := by
  refine ⟨?_, ?_, ?_, ?_, ?_, ?_⟩
  · intro u hu
    subst hu
    simp [rateLimitKey]
  · intro hcu u hau
    subst hcu; subst hau
    simp [rateLimitKey]
  · intro hcu hau
    subst hcu; subst hau
    simp [rateLimitKey]
  · intro u hu hcu
    subst hcu
    simp only [rateLimitKey, hu]
    decide
  · intro u hu hcu hau
    subst hcu; subst hau
    simp only [rateLimitKey, hu]
    decide
  · intro hcu hau hh
    subst hcu; subst hau; subst hh
    simp [rateLimitKey]

/-- Witness for C2 at concrete identities and address. -/
theorem rate_limit_key_priority_witness :
    rateLimitKey (some ⟨7, "alice", true, none, none⟩) none "x" = "user:7" ∧
    rateLimitKey none (some ⟨7, "bob", true, none, none⟩) "x" = "api:7" ∧
    rateLimitKey none none "10.0.0.5" = "ip:10.0.0.5" :=
  ⟨(rate_limit_key_priority (some ⟨7, "alice", true, none, none⟩) none "x").2.2.2.1
      ⟨7, "alice", true, none, none⟩ rfl rfl,
   (rate_limit_key_priority none (some ⟨7, "bob", true, none, none⟩) "x").2.2.2.2.1
      ⟨7, "bob", true, none, none⟩ rfl rfl rfl,
   (rate_limit_key_priority none none "10.0.0.5").2.2.2.2.2 rfl rfl rfl⟩

/-- C4: when both paths resolve, require_auth and optional_auth both return
the token-resolved identity, and optional_auth never rejects: it is a total
function that returns none exactly when neither path resolved. -/
theorem token_path_priority (u v : User) (cu au : Option User) :
    require_auth (some u) (some v) = .ok u ∧
    optional_auth (some u) (some v) = some u ∧
    (optional_auth cu au = none ↔ cu = none ∧ au = none) := by
  refine ⟨rfl, rfl, ?_⟩
  cases cu <;> cases au <;> simp [optional_auth]

/-- C7: verify_token returns none on a malformed token, on a token signed
with a key other than the configured secret, and on an expired token; it
returns the decoded payload on a well-signed unexpired token.  It is a
total function into Option, so it never raises. -/
theorem verify_token_total_uniform (secret : String) (now : Nat) :
    verify_token secret now .malformed = none ∧
    (∀ p k, k ≠ secret → verify_token secret now (.signed p k) = none) ∧
    (∀ p, p.exp < now → verify_token secret now (.signed p secret) = none) ∧
    (∀ p, now ≤ p.exp → verify_token secret now (.signed p secret) = some p) := by
  refine ⟨rfl, ?_, ?_, ?_⟩
  · intro p k hk
    simp [verify_token, jwtDecode, hk]
  · intro p hexp
    simp [verify_token, jwtDecode, hexp]
  · intro p hexp
    simp [verify_token, jwtDecode, Nat.not_lt.mpr hexp]

/-- Witness for C7: a forged, an expired, and a valid token at time 5. -/
theorem verify_token_total_uniform_witness :
    verify_token "secret" 5 (.signed ⟨some "a", some 1, 0, 10⟩ "other") = none ∧
    verify_token "secret" 5 (.signed ⟨some "a", some 1, 0, 3⟩ "secret") = none ∧
    verify_token "secret" 5 (.signed ⟨some "a", some 1, 0, 10⟩ "secret") =
      some ⟨some "a", some 1, 0, 10⟩ :=
  ⟨(verify_token_total_uniform "secret" 5).2.1 ⟨some "a", some 1, 0, 10⟩ "other" (by decide),
   (verify_token_total_uniform "secret" 5).2.2.1 ⟨some "a", some 1, 0, 3⟩ (by decide),
   (verify_token_total_uniform "secret" 5).2.2.2 ⟨some "a", some 1, 0, 10⟩ (by decide)⟩

/-- C10: a non-empty stored API key with no stored expiry is valid at every
instant; an unset API key is never valid; and the API-key resolution path
accepts such a key at every instant for an active account. -/
theorem api_key_without_expiry_never_expires (u : User) (k : String) (now : Nat) :
    (u.api_key = some k → k ≠ "" → u.api_key_expires_at = none →
      u.is_api_key_valid now = true) ∧
    (u.api_key = none → u.is_api_key_valid now = false) ∧
    (∀ dbByKey : String → Option User, dbByKey k = some u → u.api_key = some k →
      k ≠ "" → u.api_key_expires_at = none → u.is_active = true →
      verify_api_key dbByKey now (some k) = some u) := by
  refine ⟨?_, ?_, ?_⟩
  · intro hk hne hexp
    simp [User.is_api_key_valid, hk, hexp, strTruthy, hne]
  · intro hk
    simp [User.is_api_key_valid, hk, strTruthy]
  · intro dbByKey hdb hk hne hexp hact
    have hvalid : u.is_api_key_valid now = true := by
      simp [User.is_api_key_valid, hk, hexp, strTruthy, hne]
    simp [verify_api_key, strTruthy, hne, hdb, hvalid, hact]

/-- Witness for C10: user 3 with key "sk_x" and no expiry, at time 10^9. -/
theorem api_key_without_expiry_never_expires_witness :
    User.is_api_key_valid 1000000000 ⟨3, "carol", true, some "sk_x", none⟩ = true ∧
    User.is_api_key_valid 1000000000 ⟨3, "carol", true, none, none⟩ = false ∧
    verify_api_key (fun s => if s = "sk_x" then some ⟨3, "carol", true, some "sk_x", none⟩ else none)
      1000000000 (some "sk_x") = some ⟨3, "carol", true, some "sk_x", none⟩ :=
  ⟨(api_key_without_expiry_never_expires ⟨3, "carol", true, some "sk_x", none⟩ "sk_x"
      1000000000).1 rfl (by decide) rfl,
   (api_key_without_expiry_never_expires ⟨3, "carol", true, none, none⟩ "sk_x"
      1000000000).2.1 rfl,
   (api_key_without_expiry_never_expires ⟨3, "carol", true, some "sk_x", none⟩ "sk_x"
      1000000000).2.2
      (fun s => if s = "sk_x" then some ⟨3, "carol", true, some "sk_x", none⟩ else none)
      (by simp) rfl (by decide) rfl rfl⟩

/-- C6: on an unreachable counter store the increment returns 0 instead of
propagating, and the middleware then admits the request for any configured
limit of at least 1 (which the config validator enforces). -/
theorem rate_limiter_fails_open (key host : String) (cu au : Option User) (limit : Nat) :
    increment_rate_limit .down key = (0, .down) ∧
    (1 ≤ limit → rate_limit_middleware limit cu au host .down = (none, .down)) ∧
    (∀ v : Int, validate_rate_limit v = .ok v ↔ 1 ≤ v) := by
  refine ⟨rfl, ?_, ?_⟩
  · intro _
    simp [rate_limit_middleware, increment_rate_limit]
  · intro v
    unfold validate_rate_limit
    split
    · rename_i h
      constructor
      · intro hc
        exact Except.noConfusion hc
      · intro h1
        exact absurd h1 (by omega)
    · rename_i h
      constructor
      · intro _
        omega
      · intro _
        rfl

/-- Witness for C6: down store, limit 1, anonymous caller. -/
theorem rate_limiter_fails_open_witness :
    rate_limit_middleware 1 none none "10.0.0.5" .down = (none, .down) ∧
    validate_rate_limit 1 = .ok 1 :=
  ⟨(rate_limiter_fails_open "k" "10.0.0.5" none none 1).2.1 (by decide),
   ((rate_limiter_fails_open "k" "10.0.0.5" none none 1).2.2 1).mpr (by decide)⟩

/-- Helper: the middleware always hands back the post-increment store,
whether it admits or rejects. -/
theorem rate_limit_middleware_snd (limit : Nat) (cu au : Option User) (host : String)
    (st : StoreState) :
    (rate_limit_middleware limit cu au host st).2 =
      (increment_rate_limit st (rateLimitKey cu au host)).2 := by
  simp only [rate_limit_middleware]
  split <;> rfl

/-- Helper: after n sequential calls on a reachable store the store is still
reachable and the caller's key has gained exactly n. -/
theorem callSeq_count (limit : Nat) (cu au : Option User) (host : String)
    (s0 : String → Nat) :
    ∀ n : Nat, ∃ s : String → Nat,
      callSeq limit cu au host n (.up s0) = .up s ∧
      s (rateLimitKey cu au host) = s0 (rateLimitKey cu au host) + n := by
  intro n
  induction n with
  | zero => exact ⟨s0, rfl, rfl⟩
  | succ n ih =>
    obtain ⟨s, hs, hcount⟩ := ih
    refine ⟨fun k => if k = rateLimitKey cu au host
        then s (rateLimitKey cu au host) + 1 else s k, ?_, ?_⟩
    · show (rate_limit_middleware limit cu au host
          (callSeq limit cu au host n (.up s0))).2 = _
      rw [hs, rate_limit_middleware_snd]
      rfl
    · simp [hcount]
      omega

/-- C1: a reachable increment returns the previous count plus one (so the
nth sequential increment of a fresh key returns n), and the middleware
rejects with the 429/Retry-After:60 error exactly when the returned count
strictly exceeds the limit: for a fresh key, call n+1 is admitted iff
n+1 ≤ limit, so exactly `limit` calls succeed and call limit+1 (whose
increment returns limit+1) is the first one rejected. -/
theorem rate_limit_decision (limit : Nat) (cu au : Option User) (host : String)
    (s0 : String → Nat) (hfresh : s0 (rateLimitKey cu au host) = 0) :
    (∀ (s : String → Nat) (key : String),
      (increment_rate_limit (.up s) key).1 = s key + 1 ∧
      (increment_rate_limit (.up s) key).2.count key = s key + 1) ∧
    (∀ st : StoreState,
      (rate_limit_middleware limit cu au host st).1 =
        if (increment_rate_limit st (rateLimitKey cu au host)).1 > limit
        then some (rateLimitError limit) else none) ∧
    (∀ n : Nat, (callSeq limit cu au host n (.up s0)).count (rateLimitKey cu au host) = n) ∧
    (∀ n : Nat,
      (rate_limit_middleware limit cu au host (callSeq limit cu au host n (.up s0))).1 =
        if n + 1 ≤ limit then none else some (rateLimitError limit)) := by
  have hcount : ∀ n : Nat,
      (callSeq limit cu au host n (.up s0)).count (rateLimitKey cu au host) = n := by
    intro n
    obtain ⟨s, hs, hc⟩ := callSeq_count limit cu au host s0 n
    rw [hs]
    simpa [StoreState.count, hfresh] using hc
  refine ⟨?_, ?_, hcount, ?_⟩
  · intro s key
    constructor
    · rfl
    · simp [increment_rate_limit, StoreState.count]
  · intro st
    simp only [rate_limit_middleware]
    split <;> rename_i h <;> simp [h]
  · intro n
    obtain ⟨s, hs, hc⟩ := callSeq_count limit cu au host s0 n
    rw [hfresh, Nat.zero_add] at hc
    rw [hs]
    unfold rate_limit_middleware
    simp only [increment_rate_limit, hc]
    by_cases h : n + 1 ≤ limit
    · rw [if_neg (by omega), if_pos h]
    · rw [if_pos (by omega), if_neg h]

/-- Witness for C1: limit 3, anonymous caller, fresh store: call 3 is
admitted and call 4 is rejected with the 429 error. -/
theorem rate_limit_decision_witness :
    (rate_limit_middleware 3 none none "10.0.0.5"
        (callSeq 3 none none "10.0.0.5" 2 (.up fun _ => 0))).1 = none ∧
    (rate_limit_middleware 3 none none "10.0.0.5"
        (callSeq 3 none none "10.0.0.5" 3 (.up fun _ => 0))).1 =
      some (rateLimitError 3) := by
  have h := rate_limit_decision 3 none none "10.0.0.5" (fun _ => 0) rfl
  constructor
  · simpa using h.2.2.2 2
  · simpa using h.2.2.2 3

/-- C5 (code bug): `generate_api_key` depends only on the configured secret
and the current UTC date, not on the user, so two distinct users who
generate API keys on the same day receive the identical stored key —
contradicting the one-to-one mapping the spec states and the unique
constraint the `api_key` column itself declares. -/
theorem api_key_collision_across_users :
    (⟨1, "alice", true, none, none⟩ : User) ≠ (⟨2, "bob", true, none, none⟩ : User) ∧
    (generate_api_key_for_user ⟨1, "alice", true, none, none⟩
        "0123456789abcdef0123456789abcdef" "20261012" 0).1.api_key =
      some "sk_0123456789abcdef_20261012" ∧
    (generate_api_key_for_user ⟨2, "bob", true, none, none⟩
        "0123456789abcdef0123456789abcdef" "20261012" 0).1.api_key =
      some "sk_0123456789abcdef_20261012" ∧
    (generate_api_key_for_user ⟨1, "alice", true, none, none⟩
        "0123456789abcdef0123456789abcdef" "20261012" 0).2 =
      (generate_api_key_for_user ⟨2, "bob", true, none, none⟩
        "0123456789abcdef0123456789abcdef" "20261012" 0).2 :=
  ⟨by decide, rfl, rfl, rfl⟩

/-- C3 counterexample: a valid token for an existing but inactive user does
NOT reach the 400 outcome — get_current_user filters the inactive user to
none, so get_current_active_user raises the 401, not the 400. -/
theorem inactive_user_receives_401_not_400 :
    verify_token "testsecret" 10 (.signed ⟨some "alice", some 1, 0, 100⟩ "testsecret") =
      some ⟨some "alice", some 1, 0, 100⟩ ∧
    get_current_user
        (fun n => if n = 1 then some ⟨1, "alice", false, none, none⟩ else none)
        "testsecret" 10
        (some (.signed ⟨some "alice", some 1, 0, 100⟩ "testsecret")) = none ∧
    get_current_active_user
        (get_current_user
          (fun n => if n = 1 then some ⟨1, "alice", false, none, none⟩ else none)
          "testsecret" 10
          (some (.signed ⟨some "alice", some 1, 0, 100⟩ "testsecret"))) =
      .error (unauthenticatedError "Not authenticated") ∧
    (unauthenticatedError "Not authenticated").status = 401 ∧
    inactiveError.status = 400 :=
  ⟨rfl, rfl, rfl, rfl, rfl⟩

/-- C3 (amended): get_current_active_user maps an unresolved identity to the
401 with WWW-Authenticate: Bearer and would map a resolved inactive identity
to the distinct 400; but get_current_user only ever resolves active users,
so through the composed dependency every request with a token for an
inactive user receives the 401 and the 400 branch is unreachable. -/
theorem active_user_gate (db : Nat → Option User) (secret : String) (now : Nat)
    (cred : Option JoseToken) :
    (get_current_user db secret now cred = none →
      get_current_active_user (get_current_user db secret now cred) =
        .error (unauthenticatedError "Not authenticated")) ∧
    (∀ u, get_current_user db secret now cred = some u → u.is_active = true) ∧
    (∀ u, get_current_user db secret now cred = some u →
      get_current_active_user (get_current_user db secret now cred) = .ok u) ∧
    (∀ u, u.is_active = false → get_current_active_user (some u) = .error inactiveError) := by
  have hactive : ∀ u, get_current_user db secret now cred = some u → u.is_active = true := by
    intro u hu
    unfold get_current_user at hu
    repeat' split at hu
    all_goals simp_all
  refine ⟨?_, hactive, ?_, ?_⟩
  · intro h
    rw [h]
    rfl
  · intro u hu
    rw [hu]
    simp [get_current_active_user, hactive u hu]
  · intro u hu
    simp [get_current_active_user, hu]

/-- Witness for the amended C3: an active user resolves and passes; an
unresolved request gets the 401; a directly supplied inactive identity gets
the 400. -/
theorem active_user_gate_witness :
    get_current_active_user
        (get_current_user
          (fun n => if n = 1 then some ⟨1, "alice", true, none, none⟩ else none)
          "testsecret" 10
          (some (.signed ⟨some "alice", some 1, 0, 100⟩ "testsecret"))) =
      .ok ⟨1, "alice", true, none, none⟩ ∧
    get_current_active_user none = .error (unauthenticatedError "Not authenticated") ∧
    get_current_active_user (some ⟨2, "bob", false, none, none⟩) = .error inactiveError :=
  ⟨(active_user_gate
      (fun n => if n = 1 then some ⟨1, "alice", true, none, none⟩ else none)
      "testsecret" 10
      (some (.signed ⟨some "alice", some 1, 0, 100⟩ "testsecret"))).2.2.1
      ⟨1, "alice", true, none, none⟩ rfl,
   (active_user_gate (fun _ => none) "s" 0 none).1 rfl,
   (active_user_gate (fun _ => none) "s" 0 none).2.2.2 ⟨2, "bob", false, none, none⟩ rfl⟩

/-- The expiry instant create_access_token encodes: now + delta when a
delta is passed, now + the configured minutes otherwise. -/
def token_expiry (now : Nat) (expires_delta : Option Nat) (default_expire_minutes : Nat) : Nat :=
  match expires_delta with
  | some d => now + d
  | none => now + default_expire_minutes * 60

/-- C8: a token minted by create_access_token for subject sub and user id
uid verifies to exactly that payload at any instant strictly before its
expiry, and verifies to none at any instant strictly after it. -/
theorem token_round_trip (sub : String) (uid : Nat) (now : Nat)
    (expires_delta : Option Nat) (default_expire_minutes : Nat) (secret : String) (t : Nat) :
    (t < token_expiry now expires_delta default_expire_minutes →
      verify_token secret t
          (create_access_token ⟨some sub, some uid⟩ now expires_delta
            default_expire_minutes secret) =
        some ⟨some sub, some uid, now, token_expiry now expires_delta default_expire_minutes⟩) ∧
    (token_expiry now expires_delta default_expire_minutes < t →
      verify_token secret t
          (create_access_token ⟨some sub, some uid⟩ now expires_delta
            default_expire_minutes secret) = none) := by
  have hc : create_access_token ⟨some sub, some uid⟩ now expires_delta
      default_expire_minutes secret =
      .signed ⟨some sub, some uid, now,
        token_expiry now expires_delta default_expire_minutes⟩ secret := by
    cases expires_delta <;> rfl
  rw [hc]
  constructor
  · intro ht
    simp [verify_token, jwtDecode, Nat.not_lt.mpr (Nat.le_of_lt ht)]
  · intro ht
    simp [verify_token, jwtDecode, ht]

/-- Witness for C8: subject "alice", id 7, issued at 0 with TTL 60:
verifies at 50, fails at 61. -/
theorem token_round_trip_witness :
    verify_token "secret" 50
        (create_access_token ⟨some "alice", some 7⟩ 0 (some 60) 30 "secret") =
      some ⟨some "alice", some 7, 0, 60⟩ ∧
    verify_token "secret" 61
        (create_access_token ⟨some "alice", some 7⟩ 0 (some 60) 30 "secret") = none :=
  ⟨(token_round_trip "alice" 7 0 (some 60) 30 "secret" 50).1 (by decide),
   (token_round_trip "alice" 7 0 (some 60) 30 "secret" 61).2 (by decide)⟩

/-- C9: the implemented popularity_score equals the spec formula
base + vote_component + 0.5·recency_bonus + 0.3·financial_bonus (with an
unset numeric input read as null or its 0 column default), it is total (a
Lean function, defined for every combination of absent inputs), and for an
entity with no release date and no financial data it equals
base + vote_component + 1/4 exactly. -/
theorem popularity_score_spec (m : Movie) :
    m.popularity_score = specScore m ∧
    (m.release_days = none → m.budget = none → m.revenue = none →
      m.popularity_score =
        pyOrQ m.popularity + pyOrQ m.vote_average * min (pyOrZ m.vote_count / 1000) 1
          + 1 / 4) := by
  constructor
  · rcases m with ⟨pop, va, vc, rd, bu, re⟩
    unfold Movie.popularity_score specScore
    rcases bu with _ | b <;> rcases re with _ | r <;> rcases rd with _ | d <;>
      simp [intTruthy, and_assoc] <;>
      try ring
  · intro h1 h2 h3
    unfold Movie.popularity_score
    simp only [h1, h2, h3]
    ring

/-- Witness for C9 at the all-absent movie: its score is exactly 1/4 above
the (zero) base and vote component. -/
theorem popularity_score_spec_witness :
    Movie.popularity_score ⟨none, none, none, none, none, none⟩ =
      pyOrQ none + pyOrQ none * min (pyOrZ none / 1000) 1 + 1 / 4 :=
  (popularity_score_spec ⟨none, none, none, none, none, none⟩).2 rfl rfl rfl

end MovieRec
